import Mathlib

/-!
Shallow embedding of the "banger" generation-and-publication core
(`src/app/core/x_client.py`, `src/app/core/generator.py`,
`src/app/utils/cache.py`, `src/app/utils/usage.py`,
`src/app/api/routes.py`).

Conventions:
* Python `time.time()` timestamps are modelled as `Int` seconds.
* `datetime.strftime("%Y-%m")` (the month key) is an external library
  call; it is modelled as an abstract parameter `monthKey : Int → String`
  applied to the current timestamp, exactly where the code calls it.
* Python `dict` is modelled as an association list in insertion order;
  assignment to an existing key updates in place, assignment to a fresh
  key appends.
* The content-generation provider (Gemini) and the social-posting
  platform (X) are modelled as oracles supplied as arguments: a list of
  raw provider responses consumed one call at a time, and a function
  `String → Except String String` returning a platform error string or
  a platform id.
-/

deriving instance DecidableEq for Except

namespace Banger

/-! ### Python string helpers -/

/-- Python `str.strip()` with no argument: drop leading and trailing
whitespace. Modelled directly on the character list. -/
def pyStrip (s : String) : String :=
  String.mk ((s.data.dropWhile Char.isWhitespace).rdropWhile Char.isWhitespace)

/-- Worker for `pySplit`: scan the character list, accumulating the
current word reversed in `acc`. Structural recursion so that concrete
inputs evaluate inside the kernel. -/
def pySplitAux : List Char → List Char → List String
  | [], acc => if acc = [] then [] else [String.mk acc.reverse]
  | c :: cs, acc =>
      if Char.isWhitespace c then
        if acc = [] then pySplitAux cs []
        else String.mk acc.reverse :: pySplitAux cs []
      else pySplitAux cs (c :: acc)

/-- Python `str.split()` with no argument: split on whitespace runs,
dropping empty pieces. -/
def pySplit (s : String) : List String :=
  pySplitAux s.data []

/-- `" ".join(text.split())` — whitespace-collapsed normal form used by
the ledger's duplicate guard. -/
def pyNorm (s : String) : String :=
  String.intercalate " " (pySplit s)

/-- Python `str.lower()` (ASCII case folding suffices for the banned
phrase lists, which are ASCII). -/
def pyLower (s : String) : String :=
  String.mk (s.data.map Char.toLower)

/-- Python `str.startswith(pre)`. -/
def pyStartsWith (s pre : String) : Bool :=
  pre.data.isPrefixOf s.data

/-- Worker for `strContains`: does `needle` occur as a prefix of any
suffix of the character list? -/
def strContainsAux (needle : List Char) : List Char → Bool
  | [] => needle.isPrefixOf []
  | c :: cs => needle.isPrefixOf (c :: cs) || strContainsAux needle cs

/-- Python `needle in hay`. -/
def strContains (hay needle : String) : Bool :=
  strContainsAux needle.data hay.data

/-! ### Python dict as an association list -/

/-- Python dict assignment `d[k] = v`: update in place if the key
exists, append otherwise. -/
def dictSet {κ ν : Type} [DecidableEq κ] (c : List (κ × ν)) (k : κ) (v : ν) :
    List (κ × ν) :=
  if c.any (fun p => p.1 = k) then
    c.map (fun p => if p.1 = k then (k, v) else p)
  else
    c ++ [(k, v)]

/-- Python `d.get(k)`. -/
def dictGet {κ ν : Type} [DecidableEq κ] (c : List (κ × ν)) (k : κ) : Option ν :=
  (c.find? (fun p => p.1 = k)).map (fun p => p.2)

/-- Python `d.pop(k, None)` (the mapping after removal). -/
def dictPop {κ ν : Type} [DecidableEq κ] (c : List (κ × ν)) (k : κ) :
    List (κ × ν) :=
  c.filter (fun p => p.1 ≠ k)

/-! ### `app/utils/cache.py` — generation result cache -/

/-- Cache key: the tuple `(mode, today_context, current_mood, optional_angle)`. -/
abbrev CacheKey := String × String × String × String

/-- `_GEN_CACHE`: a dict from key to `(timestamp, options)`. -/
abbrev GenCache := List (CacheKey × (Int × List String))

/-- `_GEN_CACHE_TTL_SECONDS = 120`. -/
def GEN_CACHE_TTL_SECONDS : Int := 120

/-- `get_cached_options(key)`: returns the cached options if present and
fresh; evicts and returns `none` if the entry is older than the TTL.
Returns the result together with the cache after the call. -/
def get_cached_options (now : Int) (cache : GenCache) (key : CacheKey) :
    Option (List String) × GenCache :=
  match dictGet cache key with
  | none => (none, cache)
  | some (ts, options) =>
      if now - ts > GEN_CACHE_TTL_SECONDS then
        (none, dictPop cache key)
      else
        (some options, cache)

/-- `set_cached_options(key, options)`: store `(time.time(), options)`. -/
def set_cached_options (now : Int) (cache : GenCache) (key : CacheKey)
    (options : List String) : GenCache :=
  dictSet cache key (now, options)

/-! ### `app/utils/usage.py` — per-user daily quota -/

/-- `FREE_DAILY_LIMIT = 3`. -/
def FREE_DAILY_LIMIT : Int := 3

/-- The fields of a `user_usage` row that the quota logic reads;
a missing row is `⟨none, 0⟩` (Python `usage.get(..., default)`). -/
structure UsageRow where
  last_generation_date : Option String
  daily_generations : Int
deriving DecidableEq, Repr

/-- `get_daily_generations(user)`: the stored count, lazily reset to 0
whenever the stored day key differs from today's. -/
def get_daily_generations (usage : UsageRow) (today : String) : Int :=
  if usage.last_generation_date ≠ some today then 0
  else usage.daily_generations

/-- `can_generate(user) -> (allowed, remaining, reason)`.
`paid` is the result of `is_user_paid`; `usage`/`today` stand for the
backing-store row and `_today_key()`. -/
def can_generate (paid : Bool) (usage : UsageRow) (today : String) :
    Bool × Int × String :=
  if paid then (true, -1, "unlimited")
  else
    let used := get_daily_generations usage today
    let remaining := FREE_DAILY_LIMIT - used
    if remaining > 0 then (true, remaining, "free_tier")
    else (false, 0, "limit_reached")

/-! ### `app/core/generator.py` — mode rotation -/

/-- `ROTATION = ["product_building", "feature_cutting"]`. -/
def ROTATION : List String := ["product_building", "feature_cutting"]

/-- `pick_mode_for_today()`: the current UTC date rendered as the number
`YYYYMMDD` selects `ROTATION[date % len(ROTATION)]`. The date is passed
in as the already-rendered number. -/
def pick_mode_for_today (yyyymmdd : Nat) : String :=
  ROTATION.getD (yyyymmdd % ROTATION.length) ""

/-! ### `app/core/x_client.py` — post ledger and publish path -/

/-- One ledger record, as written by `record_post_to_ledger`. -/
structure LedgerRec where
  ts : Int
  month : String
  norm_text : String
  method : String
  tweet_id : Option String
  tweet_url : Option String
deriving DecidableEq, Repr

/-- The ledger: a dict from record id to record, in insertion order. -/
abbrev Ledger := List (String × LedgerRec)

/-- Python truthiness of an optional string (`None` and `""` are falsy). -/
def truthy : Option String → Bool
  | none => false
  | some s => s ≠ ""

/-- `MAX_WRITES` (env `MAX_X_WRITES_PER_MONTH`, default 480), passed as a
parameter so theorems hold for any configured limit. -/
def remaining_posts_this_month (maxWrites : Int) (mk : String) (led : Ledger) : Int :=
  max 0 (maxWrites -
    (led.filter (fun p => p.2.month = mk && p.2.method = "api")).length)

/-- `was_recently_posted(text, days=2)`: some record has the same
normalized text and a timestamp within the window. -/
def was_recently_posted (now : Int) (led : Ledger) (text : String)
    (days : Int := 2) : Bool :=
  let norm := pyNorm text
  let cutoff := now - days * 86400
  led.any (fun p => p.2.norm_text = norm && p.2.ts ≥ cutoff)

/-- `_tweet_url(tweet_id)`. -/
def tweet_url_of (tweet_id : String) : String :=
  "https://x.com/i/web/status/" ++ tweet_id

/-- The first ledger entry whose record matches the duplicate condition
(`norm_text == norm and ts >= cutoff`), as found by the `for` loop in
`record_post_to_ledger`. -/
def findRecent (led : Ledger) (norm : String) (cutoff : Int) :
    Option (String × LedgerRec) :=
  led.find? (fun p => p.2.norm_text = norm && p.2.ts ≥ cutoff)

/-- Python `a or b` on optional strings (`None`/`""` are falsy). -/
def pyOr (a b : Option String) : Option String :=
  if truthy a then a else b

/-- `record_post_to_ledger(text, method, tweet_id, tweet_url)`.
Returns the ledger after the call and whether `_save_ledger` ran.
`monthKey` stands for `_month_key` (a strftime call on the current time). -/
def record_post_to_ledger (now : Int) (monthKey : Int → String)
    (text method : String) (tweet_id tweet_url : Option String)
    (led : Ledger) : Ledger × Bool :=
  let text := pyStrip text
  if text = "" then (led, false)
  else
    let norm := pyNorm text
    let cutoff := now - 2 * 86400
    match findRecent led norm cutoff with
    | some (rid, r) =>
        -- recently recorded: attach tweet_id/url if newly supplied, else no-op
        if truthy tweet_id && !(truthy r.tweet_id) then
          let r' := { r with
            tweet_id := tweet_id
            tweet_url := pyOr tweet_url (some (tweet_url_of (tweet_id.getD ""))) }
          (dictSet led rid r', true)
        else (led, false)
    | none =>
        let record_id :=
          if method ≠ "api" then method ++ "_" ++ toString (now * 1000)
          else "api_" ++ toString (now * 1000)
        let r : LedgerRec :=
          { ts := now
            month := monthKey now
            norm_text := norm
            method := method
            tweet_id := if method = "api" then tweet_id
                        else (if truthy tweet_id then tweet_id else none)
            tweet_url := pyOr tweet_url
              (if truthy tweet_id then some (tweet_url_of (tweet_id.getD "")) else none) }
        (dictSet led record_id r, true)

/-- The result dict of `post_to_x`. -/
structure PostResult where
  success : Bool
  tweet_id : Option String
  error : Option String
  remaining : Int
deriving DecidableEq, Repr

/-- `post_to_x(tweet_text)`.

* `auth` stands for the outcome of the `_fetch_x_user_info` preamble:
  `none` when the account is not connected (or the fetch raised — both
  return before any guard runs), `some token` otherwise.
* `platform` is the social-posting platform (`client.create_tweet`):
  `.ok id` on success, `.error e` when the call raises with message `e`.

Returns the result dict, the ledger after the call, and whether the
platform was contacted. -/
def post_to_x (maxWrites : Int) (now : Int) (monthKey : Int → String)
    (auth : Option String) (platform : String → Except String String)
    (led : Ledger) (tweet_text : String) : PostResult × Ledger × Bool :=
  let tweet_text := pyStrip tweet_text
  let mk := monthKey now
  match auth with
  | none =>
      (⟨false, none, some "X account not connected",
        remaining_posts_this_month maxWrites mk led⟩, led, false)
  | some _ =>
    if tweet_text = "" then
      (⟨false, none, some "empty_text",
        remaining_posts_this_month maxWrites mk led⟩, led, false)
    else if tweet_text.length > 280 then
      (⟨false, none, some "over_280_chars",
        remaining_posts_this_month maxWrites mk led⟩, led, false)
    else if was_recently_posted now led tweet_text 2 then
      (⟨false, none, some "duplicate_guard_48h",
        remaining_posts_this_month maxWrites mk led⟩, led, false)
    else if remaining_posts_this_month maxWrites mk led ≤ 0 then
      (⟨false, none, some "monthly_quota_reached", 0⟩, led, false)
    else
      match platform tweet_text with
      | .ok tid =>
          let led' :=
            (record_post_to_ledger now monthKey tweet_text "api" (some tid) none led).1
          (⟨true, some tid, none, remaining_posts_this_month maxWrites mk led'⟩,
            led', true)
      | .error e =>
          (⟨false, none, some e,
            remaining_posts_this_month maxWrites mk led⟩, led, true)

/-! ### `app/core/generator.py` — content-quality gates and generation -/

/-- `AD_LIKE_PHRASES`. -/
def AD_LIKE_PHRASES : List String :=
  ["introducing", "launching", "now live", "big announcement",
   "sign up", "join", "subscribe", "download", "try it", "check it out",
   "dm me", "link in bio", "limited time",
   "game-changer", "revolutionary", "ultimate", "secret", "unlock"]

/-- `is_ad_like(text)`: empty after strip, over 500 raw characters, or
containing any banned promotional phrase (lower-cased substring match). -/
def is_ad_like (text : String) : Bool :=
  let t := pyLower (pyStrip text)
  if t = "" then true
  else if text.length > 500 then true
  else AD_LIKE_PHRASES.any (fun p => strContains t p)

/-- `is_builder_feel(text, mode)`: nonempty, does not open with
"the brain", and avoids the generic neuroscience vocabulary.
(`mode` is accepted and ignored, as in the code.) -/
def is_builder_feel (text : String) (mode : String) : Bool :=
  let t := pyNorm (pyLower (pyStrip text))
  if t = "" then false
  else if pyStartsWith t "the brain" then false
  else if strContains t "neuroscience" || strContains t "dopamine"
       || strContains t "psychology says" then false
  else
    let _ := mode
    true

/-- `generate_with_gemini(prompt, temperature)` applied to one raw
provider response: a raised provider error propagates; an empty
(stripped) response raises `RuntimeError`; otherwise the stripped text
is returned. -/
def generate_with_gemini (resp : Except String String) : Except String String :=
  match resp with
  | .error e => .error e
  | .ok raw =>
      let text := pyStrip raw
      if text = "" then .error "Empty response from Gemini" else .ok text

/-- The retry loop of `generate_human_post` over the temperature
schedule `(0.5, 0.4, 0.3, 0.2)`: the `i`-th provider call receives raw
response `g i`; a candidate is returned as soon as it passes both gates;
a raised call propagates immediately. `none` means the loop fell through
all four attempts. The next unused call index is returned alongside. -/
def gen_post_loop (mode : String) (g : Nat → Except String String) :
    Nat → Nat → Option (Except String String) × Nat
  | 0, i => (none, i)
  | n + 1, i =>
      match generate_with_gemini (g i) with
      | .error e => (some (.error e), i + 1)
      | .ok post =>
          if !(is_ad_like post) && is_builder_feel post mode then
            (some (.ok post), i + 1)
          else gen_post_loop mode g n (i + 1)

/-- `generate_human_post(prompt, mode)` where `g` maps each provider
call index to its raw response and `i` is the first call index. Returns
the outcome, whether the returned value came from the final unchecked
rewrite call, and the next unused call index. -/
def generate_human_post (mode : String) (g : Nat → Except String String)
    (i : Nat) : Except String String × Bool × Nat :=
  match gen_post_loop mode g 4 i with
  | (some out, j) => (out, false, j)
  | (none, j) =>
      -- last attempt: explicit rewrite, returned without re-running the gates
      (generate_with_gemini (g j), true, j + 1)

/-! ### `app/api/routes.py` — `/api/generate` cache-miss orchestration -/

/-- One `gather` slot: append a call outcome to the options collected so
far, mirroring `_one_call`'s `.strip()` and the
`if r and r not in seen` filter (raised calls are skipped). -/
def addOption (opts : List String) (r : Except String String) : List String :=
  match r with
  | .error _ => opts
  | .ok s =>
      let r := pyStrip s
      if r ≠ "" && !(opts.contains r) then opts ++ [r] else opts

/-- The cache-miss orchestration of `/api/generate`: a concurrent
fan-out of two `generate_human_post` calls (outcomes `r1`, `r2`, in
gather order), then — only while fewer than two options were collected —
one serial backfill attempt (`extra_tries = 1`, outcome `b`), then the
empty check raising `Generation failed`. -/
def generate_orchestrate (r1 r2 b : Except String String) :
    Except String (List String) :=
  let options := addOption (addOption [] r1) r2
  let options := if options.length < 2 then addOption options b else options
  if options = [] then .error "Generation failed" else .ok options

/-- The value a call outcome contributes to the option list: the
stripped text of a successful call, unless empty. -/
def usableOpt (r : Except String String) : Option String :=
  match r with
  | .error _ => none
  | .ok s => if pyStrip s = "" then none else some (pyStrip s)

/-- First-seen-order deduplication by exact string equality. -/
def dedupFirst (l : List String) : List String :=
  l.foldl (fun acc s => if acc.contains s then acc else acc ++ [s]) []

/-- The provider-call outcomes the orchestration actually consumes: the
two fan-out outcomes always, plus the backfill outcome exactly when the
fan-out yielded fewer than two options. -/
def callsMade (r1 r2 b : Except String String) : List (Except String String) :=
  if (addOption (addOption [] r1) r2).length < 2 then [r1, r2, b] else [r1, r2]

/-- The ledger entries whose record carries a given normalized text
(the observation the duplicate-guard invariant speaks about). -/
def normFilter (led : Ledger) (norm : String) : Ledger :=
  led.filter (fun p => p.2.norm_text = norm)

/-! ### Helper lemmas -/

theorem head_dropWhile_false {α : Type} (p : α → Bool) :
    ∀ (l : List α) (a : α) (t : List α), l.dropWhile p = a :: t → p a = false := by
  intro l
  induction l with
  | nil => intro a t h; simp at h
  | cons x xs ih =>
    intro a t h
    by_cases hx : p x = true
    · rw [List.dropWhile_cons, if_pos hx] at h
      exact ih a t h
    · rw [List.dropWhile_cons, if_neg hx] at h
      cases h
      simpa using hx

theorem strip_core_idem {α : Type} (p : α → Bool) (l : List α) :
    (((l.dropWhile p).rdropWhile p).dropWhile p).rdropWhile p
      = (l.dropWhile p).rdropWhile p := by
  have h1 : ((l.dropWhile p).rdropWhile p).dropWhile p
      = (l.dropWhile p).rdropWhile p := by
    cases hcons : (l.dropWhile p).rdropWhile p with
    | nil => simp
    | cons a t =>
      have hpre : (l.dropWhile p).rdropWhile p <+: l.dropWhile p :=
        List.rdropWhile_prefix _ _
      rw [hcons] at hpre
      obtain ⟨r, hr⟩ := hpre
      have ha : p a = false :=
        head_dropWhile_false p l a (t ++ r) (by simpa using hr.symm)
      simp [List.dropWhile_cons, ha]
  rw [h1]
  exact List.rdropWhile_idempotent p (l.dropWhile p)

theorem pyStrip_idem (s : String) : pyStrip (pyStrip s) = pyStrip s := by
  unfold pyStrip
  congr 1
  exact strip_core_idem Char.isWhitespace s.data

theorem dictGet_dictSet_self {κ ν : Type} [DecidableEq κ]
    (c : List (κ × ν)) (k : κ) (v : ν) :
    dictGet (dictSet c k v) k = some v := by
  induction c with
  | nil => simp [dictSet, dictGet]
  | cons p t ih =>
    by_cases hp : p.1 = k
    · simp [dictSet, dictGet, hp]
    · by_cases ht : t.any (fun q => q.1 = k) = true
      · have hany : (p :: t).any (fun q => q.1 = k) = true := by simp [ht]
        simp only [dictSet, ht, if_true] at ih
        simp only [dictSet, hany, if_true, List.map_cons, if_neg hp]
        simpa [dictGet, List.find?_cons, hp] using ih
      · have hany : ¬ ((p :: t).any (fun q => q.1 = k) = true) := by
          simp [hp, ht]
        simp only [dictSet, ht, if_false] at ih
        simp only [dictSet, hany, if_false, List.cons_append]
        simpa [dictGet, List.find?_cons, hp] using ih

theorem dictGet_dictPop_self {κ ν : Type} [DecidableEq κ]
    (c : List (κ × ν)) (k : κ) :
    dictGet (dictPop c k) k = none := by
  unfold dictGet dictPop
  have hfind : (c.filter (fun p => decide (p.1 ≠ k))).find?
      (fun p => decide (p.1 = k)) = none := by
    rw [List.find?_eq_none]
    intro x hx
    have := (List.mem_filter.mp hx).2
    simpa using this
  rw [hfind]
  rfl

theorem max_sub_succ (w m : Int) (h : 0 < max 0 (w - m)) :
    max 0 (w - (m + 1)) = max 0 (w - m) - 1 := by
  have hw : 0 < w - m := by
    rcases lt_max_iff.mp h with h1 | h1
    · omega
    · exact h1
  rw [max_eq_right (by omega : (0:Int) ≤ w - (m + 1)),
    max_eq_right (le_of_lt hw)]
  omega

/-! ### Claim theorems -/

/-- Claim C7: for every cache key and list of options, a `get` performed
within the TTL (120 s) of the `set` returns exactly the ordered list that
was set; a `get` performed after the TTL has elapsed returns absent and
evicts the stale entry from the cache. -/
theorem cache_get_after_set (cache : GenCache) (key : CacheKey)
    (opts : List String) (t1 t2 : Int) :
    (t2 - t1 ≤ GEN_CACHE_TTL_SECONDS →
      get_cached_options t2 (set_cached_options t1 cache key opts) key
        = (some opts, set_cached_options t1 cache key opts))
    ∧ (t2 - t1 > GEN_CACHE_TTL_SECONDS →
      (get_cached_options t2 (set_cached_options t1 cache key opts) key).1 = none
      ∧ dictGet
          (get_cached_options t2 (set_cached_options t1 cache key opts) key).2 key
          = none) := by
  have hget : dictGet (set_cached_options t1 cache key opts) key = some (t1, opts) :=
    dictGet_dictSet_self cache key (t1, opts)
  constructor
  · intro h
    unfold get_cached_options
    rw [hget]
    simp only [if_neg (not_lt.mpr h)]
  · intro h
    unfold get_cached_options
    rw [hget]
    simp only [if_pos h]
    exact ⟨trivial, dictGet_dictPop_self _ _⟩

/-- Witness for C7 at a concrete key, option list and pair of read times
(100 s after the set, then 121 s after the set). -/
theorem cache_get_after_set_witness :
    get_cached_options 100 (set_cached_options 0 [] ("m", "a", "b", "c") ["x", "y"])
        ("m", "a", "b", "c")
      = (some ["x", "y"], set_cached_options 0 [] ("m", "a", "b", "c") ["x", "y"])
    ∧ (get_cached_options 121 (set_cached_options 0 [] ("m", "a", "b", "c") ["x", "y"])
        ("m", "a", "b", "c")).1 = none :=
  ⟨(cache_get_after_set [] ("m", "a", "b", "c") ["x", "y"] 0 100).1 (by decide),
   ((cache_get_after_set [] ("m", "a", "b", "c") ["x", "y"] 0 121).2 (by decide)).1⟩

/-- Claim C8: a paid user always gets `(true, -1, unlimited)`; a free user
with `used_today ≥ FREE_DAILY_LIMIT` gets `(false, 0, limit_reached)`;
otherwise a free user gets `(true, FREE_DAILY_LIMIT - used_today,
free_tier)`; and `used_today` is 0 whenever the stored day key differs
from today. -/
theorem can_generate_spec (usage : UsageRow) (today : String) :
    can_generate true usage today = (true, -1, "unlimited")
    ∧ (get_daily_generations usage today ≥ FREE_DAILY_LIMIT →
        can_generate false usage today = (false, 0, "limit_reached"))
    ∧ (get_daily_generations usage today < FREE_DAILY_LIMIT →
        can_generate false usage today
          = (true, FREE_DAILY_LIMIT - get_daily_generations usage today, "free_tier"))
    ∧ (usage.last_generation_date ≠ some today →
        get_daily_generations usage today = 0) := by
  refine ⟨rfl, ?_, ?_, ?_⟩
  · intro h
    unfold can_generate
    simp only [Bool.false_eq_true, if_false]
    rw [if_neg (by omega)]
  · intro h
    unfold can_generate
    simp only [Bool.false_eq_true, if_false]
    rw [if_pos (by omega)]
  · intro h
    unfold get_daily_generations
    rw [if_pos h]

/-- Witness for C8: a paid user over the limit, a free user at the limit,
a free user under the limit, and a stale day key. -/
theorem can_generate_spec_witness :
    can_generate true ⟨some "2024-01-01", 7⟩ "2024-01-01" = (true, -1, "unlimited")
    ∧ can_generate false ⟨some "2024-01-01", 3⟩ "2024-01-01" = (false, 0, "limit_reached")
    ∧ can_generate false ⟨some "2024-01-01", 1⟩ "2024-01-01"
        = (true, FREE_DAILY_LIMIT - get_daily_generations ⟨some "2024-01-01", 1⟩ "2024-01-01",
           "free_tier")
    ∧ get_daily_generations ⟨some "2024-01-01", 5⟩ "2024-01-02" = 0 :=
  ⟨(can_generate_spec ⟨some "2024-01-01", 7⟩ "2024-01-01").1,
   (can_generate_spec ⟨some "2024-01-01", 3⟩ "2024-01-01").2.1 (by decide),
   (can_generate_spec ⟨some "2024-01-01", 1⟩ "2024-01-01").2.2.1 (by decide),
   (can_generate_spec ⟨some "2024-01-01", 5⟩ "2024-01-02").2.2.2 (by decide)⟩

/-- Claim C9: the mode selector is a pure deterministic function of the
rendered UTC date: it equals `ROTATION[yyyymmdd % len(ROTATION)]`, always
yields a member of the rotation list, and on 2024-03-15 deterministically
yields `feature_cutting` (`20240315 % 2 = 1`). -/
theorem pick_mode_spec :
    (∀ d : Nat, pick_mode_for_today d = ROTATION.getD (d % ROTATION.length) "")
    ∧ (∀ d : Nat, pick_mode_for_today d ∈ ROTATION)
    ∧ pick_mode_for_today 20240315 = "feature_cutting" := by
  refine ⟨fun d => rfl, fun d => ?_, by decide⟩
  have h2 : ROTATION.length = 2 := rfl
  unfold pick_mode_for_today
  rw [h2]
  rcases Nat.mod_two_eq_zero_or_one d with h | h <;> rw [h] <;> decide

/-- Claim C10: calling `record_post_to_ledger` with text that strips to
the empty string is a no-op for every method and platform id: the ledger
is returned unchanged and nothing is saved to disk. -/
theorem record_empty_noop (now : Int) (monthKey : Int → String)
    (text method : String) (tid turl : Option String) (led : Ledger)
    (h : pyStrip text = "") :
    record_post_to_ledger now monthKey text method tid turl led = (led, false) := by
  simp [record_post_to_ledger, h]

/-- Witness for C10 at whitespace-only text. -/
theorem record_empty_noop_witness :
    pyStrip " \t " = ""
    ∧ record_post_to_ledger 0 (fun _ => "2024-01") " \t " "manual" none none
        [("k", ⟨5, "2024-01", "x", "manual", none, none⟩)]
      = ([("k", ⟨5, "2024-01", "x", "manual", none, none⟩)], false) :=
  ⟨by decide,
   record_empty_noop 0 (fun _ => "2024-01") " \t " "manual" none none
     [("k", ⟨5, "2024-01", "x", "manual", none, none⟩)] (by decide)⟩

/-- Claim C2: `remaining_posts_this_month` is never negative, decreases
by exactly 1 when an `api`-method record for the current month is
appended while the quota is positive, and is unaffected by appending a
record of any other method. -/
theorem remaining_quota_spec (maxWrites : Int) (mk : String) (led : Ledger)
    (rid : String) (r : LedgerRec) :
    0 ≤ remaining_posts_this_month maxWrites mk led
    ∧ (r.method = "api" → r.month = mk →
        0 < remaining_posts_this_month maxWrites mk led →
        remaining_posts_this_month maxWrites mk (led ++ [(rid, r)])
          = remaining_posts_this_month maxWrites mk led - 1)
    ∧ (r.method ≠ "api" →
        remaining_posts_this_month maxWrites mk (led ++ [(rid, r)])
          = remaining_posts_this_month maxWrites mk led) := by
  unfold remaining_posts_this_month
  refine ⟨le_max_left _ _, ?_, ?_⟩
  · intro hm hmk hpos
    rw [List.filter_append]
    have hone : List.filter (fun p => p.2.month = mk && p.2.method = "api")
        [(rid, r)] = [(rid, r)] := by
      simp [hm, hmk]
    rw [hone, List.length_append]
    push_cast
    exact max_sub_succ maxWrites _ hpos
  · intro hm
    rw [List.filter_append]
    have hnone : List.filter (fun p => p.2.month = mk && p.2.method = "api")
        [(rid, r)] = [] := by
      simp [hm]
    rw [hnone, List.append_nil]

/-- Witness for C2: appending one `api` record to an empty ledger costs
one unit of quota; appending one `manual` record costs none. -/
theorem remaining_quota_spec_witness :
    remaining_posts_this_month 480 "2024-03"
        ([] ++ [("api_1", ⟨0, "2024-03", "t", "api", some "1", none⟩)])
      = remaining_posts_this_month 480 "2024-03" [] - 1
    ∧ remaining_posts_this_month 480 "2024-03"
        ([] ++ [("manual_1", ⟨0, "2024-03", "t", "manual", none, none⟩)])
      = remaining_posts_this_month 480 "2024-03" [] :=
  ⟨(remaining_quota_spec 480 "2024-03" [] "api_1"
      ⟨0, "2024-03", "t", "api", some "1", none⟩).2.1 rfl rfl (by decide),
   (remaining_quota_spec 480 "2024-03" [] "manual_1"
      ⟨0, "2024-03", "t", "manual", none, none⟩).2.2 (by decide)⟩

/-- Counterexample to C6: with a provider that answers `"introducing"`
(which fails the ad-likeness gate) to every call, all four gated
attempts fail and `generate_human_post` returns the final rewrite's
output without re-running the gates — so a returned candidate violates
the content-quality gates. -/
theorem generate_human_post_gate_violation :
    (generate_human_post "product_building" (fun _ => Except.ok "introducing") 0).1
      = Except.ok "introducing"
    ∧ is_ad_like "introducing" = true := by
  decide

/-- Helper: any candidate the temperature retry loop accepts passes both
content-quality gates. -/
theorem gen_post_loop_ok_gates (mode : String) (g : Nat → Except String String) :
    ∀ (n i : Nat) (post : String) (j : Nat),
      gen_post_loop mode g n i = (some (Except.ok post), j) →
      is_ad_like post = false ∧ is_builder_feel post mode = true := by
  intro n
  induction n with
  | zero =>
    intro i post j h
    simp [gen_post_loop] at h
  | succ n ih =>
    intro i post j h
    unfold gen_post_loop at h
    cases hg : generate_with_gemini (g i) with
    | error e =>
      rw [hg] at h
      simp at h
    | ok p =>
      rw [hg] at h
      dsimp only at h
      by_cases hgate : (!(is_ad_like p) && is_builder_feel p mode) = true
      · rw [if_pos hgate] at h
        have hp : p = post := by
          have := congrArg Prod.fst h
          simpa using this
        subst hp
        rcases Bool.and_eq_true .. ▸ hgate with ⟨h1, h2⟩
        exact ⟨by simpa using h1, h2⟩
      · rw [if_neg hgate] at h
        exact ih _ _ _ h

/-- Claim C6 (amended): every candidate `generate_human_post` returns
from its bounded retry loop at decreasing temperature passes the
content-quality gates (`is_ad_like` false and `is_builder_feel` true);
only the output of the single final rewrite call is returned without
re-running the gates. -/
theorem generate_human_post_loop_gated (mode : String)
    (g : Nat → Except String String) (i : Nat) (post : String)
    (hloop : (generate_human_post mode g i).2.1 = false)
    (hok : (generate_human_post mode g i).1 = Except.ok post) :
    is_ad_like post = false ∧ is_builder_feel post mode = true := by
  unfold generate_human_post at hloop hok
  cases hl : gen_post_loop mode g 4 i with
  | mk out j =>
    rw [hl] at hloop hok
    cases out with
    | none => simp at hloop
    | some o =>
      simp only at hok
      subst hok
      exact gen_post_loop_ok_gates mode g 4 i post j hl

/-- Witness for the amended C6 at a gate-passing provider answer. -/
theorem generate_human_post_loop_gated_witness :
    is_ad_like "shipped a thing" = false
    ∧ is_builder_feel "shipped a thing" "product_building" = true :=
  generate_human_post_loop_gated "product_building"
    (fun _ => Except.ok "shipped a thing") 0 "shipped a thing"
    (by decide) (by decide)

/-- Helper: `addOption` in terms of the value the call contributes. -/
theorem addOption_eq_usable (opts : List String) (r : Except String String) :
    addOption opts r =
      match usableOpt r with
      | none => opts
      | some s => if opts.contains s then opts else opts ++ [s] := by
  cases r with
  | error e => rfl
  | ok s =>
    by_cases hs : pyStrip s = ""
    · simp [addOption, usableOpt, hs]
    · by_cases hc : opts.contains (pyStrip s)
      · simp [addOption, usableOpt, hs, hc]
      · simp [addOption, usableOpt, hs, hc]

/-- Helper: `addOption` yields the empty list only from the empty list
and a call that contributed nothing. -/
theorem addOption_eq_nil (opts : List String) (r : Except String String) :
    addOption opts r = [] ↔ opts = [] ∧ usableOpt r = none := by
  rw [addOption_eq_usable]
  cases hu : usableOpt r with
  | none => simp
  | some s =>
    dsimp only
    constructor
    · intro h
      by_cases hc : opts.contains s = true
      · rw [if_pos hc] at h
        subst h
        simp at hc
      · rw [if_neg hc] at h
        exact absurd h (by simp)
    · rintro ⟨-, h2⟩
      exact Option.noConfusion h2

/-- Helper: folding `addOption` is first-seen deduplication of the
usable call results. -/
theorem foldl_addOption (rs : List (Except String String)) :
    ∀ acc, rs.foldl addOption acc
      = (rs.filterMap usableOpt).foldl
          (fun acc s => if acc.contains s then acc else acc ++ [s]) acc := by
  induction rs with
  | nil => intro acc; rfl
  | cons r t ih =>
    intro acc
    rw [List.foldl_cons, addOption_eq_usable]
    cases hu : usableOpt r with
    | none =>
      rw [show (r :: t).filterMap usableOpt = t.filterMap usableOpt from by
        simp [List.filterMap_cons, hu]]
      exact ih acc
    | some s =>
      rw [show (r :: t).filterMap usableOpt = s :: t.filterMap usableOpt from by
        simp [List.filterMap_cons, hu]]
      rw [List.foldl_cons]
      exact ih _

/-- Claim C5: the cache-miss orchestration returns the usable results of
the provider calls it made (the two-call fan-out, plus the single serial
backfill exactly when fewer than two options were collected),
deduplicated by exact string equality in first-seen order, with raising
calls excluded; and it fails with the distinct `Generation failed` error
iff zero usable results remain after fan-out and backfill. -/
theorem generate_orchestrate_spec (r1 r2 b : Except String String) :
    (generate_orchestrate r1 r2 b = Except.error "Generation failed" ↔
      usableOpt r1 = none ∧ usableOpt r2 = none ∧ usableOpt b = none)
    ∧ (∀ opts, generate_orchestrate r1 r2 b = Except.ok opts →
        opts = dedupFirst ((callsMade r1 r2 b).filterMap usableOpt)
        ∧ opts ≠ []) := by
  have hA : addOption (addOption [] r1) r2
      = dedupFirst ([r1, r2].filterMap usableOpt) := by
    have h0 : addOption (addOption [] r1) r2 = [r1, r2].foldl addOption [] := rfl
    rw [h0, foldl_addOption]
    rfl
  have hB : addOption (addOption (addOption [] r1) r2) b
      = dedupFirst ([r1, r2, b].filterMap usableOpt) := by
    have h0 : addOption (addOption (addOption [] r1) r2) b
        = [r1, r2, b].foldl addOption [] := rfl
    rw [h0, foldl_addOption]
    rfl
  have hnil2 : addOption (addOption [] r1) r2 = [] ↔
      usableOpt r1 = none ∧ usableOpt r2 = none := by
    rw [addOption_eq_nil, addOption_eq_nil]
    simp
  constructor
  · unfold generate_orchestrate
    dsimp only
    by_cases hlen : (addOption (addOption [] r1) r2).length < 2
    · rw [if_pos hlen]
      by_cases hnil : addOption (addOption (addOption [] r1) r2) b = []
      · rw [if_pos hnil]
        rw [addOption_eq_nil, hnil2] at hnil
        simp [hnil.1.1, hnil.1.2, hnil.2]
      · rw [if_neg hnil]
        constructor
        · intro h
          exact Except.noConfusion h
        · rintro ⟨h1, h2, h3⟩
          exact absurd ((addOption_eq_nil _ _).mpr ⟨hnil2.mpr ⟨h1, h2⟩, h3⟩) hnil
    · rw [if_neg hlen]
      have hne : addOption (addOption [] r1) r2 ≠ [] := by
        intro h
        rw [h] at hlen
        simp at hlen
      rw [if_neg hne]
      constructor
      · intro h
        exact Except.noConfusion h
      · rintro ⟨h1, h2, h3⟩
        exact absurd (hnil2.mpr ⟨h1, h2⟩) hne
  · intro opts h
    unfold generate_orchestrate at h
    dsimp only at h
    unfold callsMade
    by_cases hlen : (addOption (addOption [] r1) r2).length < 2
    · rw [if_pos hlen] at h ⊢
      by_cases hnil : addOption (addOption (addOption [] r1) r2) b = []
      · rw [if_pos hnil] at h
        exact Except.noConfusion h
      · rw [if_neg hnil] at h
        have hopts : addOption (addOption (addOption [] r1) r2) b = opts := by
          injection h
        rw [← hopts, hB] at *
        exact ⟨by rw [← hopts, hB], by rw [← hopts]; exact hnil⟩
    · rw [if_neg hlen] at h ⊢
      have hne : addOption (addOption [] r1) r2 ≠ [] := by
        intro hx
        rw [hx] at hlen
        simp at hlen
      rw [if_neg hne] at h
      have hopts : addOption (addOption [] r1) r2 = opts := by
        injection h
      exact ⟨by rw [← hopts, hA], by rw [← hopts]; exact hne⟩

/-- Witness for C5: one successful call, one raising call, and a
backfill that duplicates the first result, yielding the single
deduplicated option. -/
theorem generate_orchestrate_spec_witness :
    generate_orchestrate (Except.ok "a") (Except.error "boom") (Except.ok " a ")
      = Except.ok ["a"]
    ∧ (["a"] : List String)
        = dedupFirst ((callsMade (Except.ok "a") (Except.error "boom")
            (Except.ok " a ")).filterMap usableOpt)
    ∧ (["a"] : List String) ≠ [] := by
  have h := (generate_orchestrate_spec (Except.ok "a") (Except.error "boom")
    (Except.ok " a ")).2 ["a"] (by decide)
  exact ⟨by decide, h.1, h.2⟩

/-- Helper: replacing the value stored under an existing key `rid` that
holds the unique record with a given normalized text leaves exactly one
record with that text — the replacement. -/
theorem normFilter_update_unique (rid : String) (r' : LedgerRec) (norm : String)
    (hnorm : r'.norm_text = norm) :
    ∀ (led : Ledger) (r : LedgerRec),
      (led.map Prod.fst).Nodup →
      normFilter led norm = [(rid, r)] →
      normFilter (led.map (fun p => if p.1 = rid then (rid, r') else p)) norm
        = [(rid, r')] := by
  intro led
  induction led with
  | nil =>
    intro r _ hone
    simp [normFilter] at hone
  | cons p t ih =>
    intro r hkeys hone
    rw [List.map_cons, List.nodup_cons] at hkeys
    obtain ⟨hhead, htail⟩ := hkeys
    by_cases hp : p.2.norm_text = norm
    · have hcons : p :: normFilter t norm = [(rid, r)] := by
        rw [← hone]
        simp [normFilter, List.filter_cons, hp]
      have hpeq : p = (rid, r) := (List.cons_eq_cons.mp hcons).1
      have htnil : normFilter t norm = [] := (List.cons_eq_cons.mp hcons).2
      have hkey : p.1 = rid := by rw [hpeq]
      have hmapt : t.map (fun q => if q.1 = rid then (rid, r') else q) = t := by
        have hfix : ∀ q ∈ t, (if q.1 = rid then (rid, r') else q) = q := by
          intro q hq
          rw [if_neg]
          intro hqk
          exact hhead (hkey ▸ hqk ▸ List.mem_map_of_mem Prod.fst hq)
        calc t.map (fun q => if q.1 = rid then (rid, r') else q)
            = t.map id := List.map_congr_left hfix
          _ = t := List.map_id t
      rw [List.map_cons, if_pos hkey, hmapt]
      have hhd : normFilter ((rid, r') :: t) norm
          = (rid, r') :: normFilter t norm := by
        simp [normFilter, List.filter_cons, hnorm]
      rw [hhd, htnil]
    · have htone : normFilter t norm = [(rid, r)] := by
        rw [← hone]
        simp [normFilter, List.filter_cons, hp]
      have hmem : (rid, r) ∈ t := by
        have hself : (rid, r) ∈ normFilter t norm := by
          rw [htone]
          exact List.mem_singleton_self (rid, r)
        exact (List.mem_filter.mp hself).1
      have hkey : p.1 ≠ rid := by
        intro hk
        exact hhead (hk ▸ List.mem_map_of_mem Prod.fst hmem)
      rw [List.map_cons, if_neg hkey]
      have hhd : normFilter (p :: t.map (fun q => if q.1 = rid then (rid, r') else q)) norm
          = normFilter (t.map (fun q => if q.1 = rid then (rid, r') else q)) norm := by
        simp [normFilter, List.filter_cons, hp]
      rw [hhd]
      exact ih r htail htone

/-- Claim C3: if `record_post_to_ledger` is called while the ledger's
unique record with the same normalized text lies within the 48 h
duplicate window and lacks a platform id, and a platform id is supplied
now, then the record is updated in place: afterwards the ledger has the
same size and contains exactly one record for that normalized text,
carrying the supplied platform id. -/
theorem record_update_in_place (now : Int) (monthKey : Int → String)
    (text method : String) (tid turl : Option String) (led : Ledger)
    (rid : String) (r : LedgerRec)
    (hkeys : (led.map Prod.fst).Nodup)
    (ht : ¬ pyStrip text = "")
    (hfind : findRecent led (pyNorm (pyStrip text)) (now - 2 * 86400) = some (rid, r))
    (hone : normFilter led (pyNorm (pyStrip text)) = [(rid, r)])
    (hid : truthy tid = true)
    (hlack : truthy r.tweet_id = false) :
    ((record_post_to_ledger now monthKey text method tid turl led).1).length
      = led.length
    ∧ normFilter (record_post_to_ledger now monthKey text method tid turl led).1
        (pyNorm (pyStrip text))
      = [(rid, { r with tweet_id := tid,
                        tweet_url := pyOr turl (some (tweet_url_of (tid.getD ""))) })] := by
  have hres : record_post_to_ledger now monthKey text method tid turl led
      = (dictSet led rid
          { r with tweet_id := tid
                   tweet_url := pyOr turl (some (tweet_url_of (tid.getD ""))) }, true) := by
    unfold record_post_to_ledger
    dsimp only
    rw [if_neg ht, hfind]
    dsimp only
    rw [if_pos (by simp [hid, hlack])]
  have hmem : (rid, r) ∈ led :=
    List.mem_of_find?_eq_some hfind
  have hany : led.any (fun p => p.1 = rid) = true :=
    List.any_eq_true.mpr ⟨(rid, r), hmem, by simp⟩
  have hpred := List.find?_some hfind
  rw [Bool.and_eq_true] at hpred
  have hnormr : r.norm_text = pyNorm (pyStrip text) := of_decide_eq_true hpred.1
  rw [hres]
  constructor
  · show (dictSet led rid _).length = led.length
    unfold dictSet
    rw [if_pos hany, List.length_map]
  · show normFilter (dictSet led rid _) _ = _
    unfold dictSet
    rw [if_pos hany]
    exact normFilter_update_unique rid
      { r with tweet_id := tid
               tweet_url := pyOr turl (some (tweet_url_of (tid.getD ""))) }
      (pyNorm (pyStrip text)) hnormr led r hkeys hone

/-- Witness for C3: the spec scenario — `record("Shipped v2", manual)`
followed one hour later by `record("Shipped v2", manual,
platform_id="999")` leaves exactly one record, carrying id 999. -/
theorem record_update_in_place_witness :
    ((record_post_to_ledger 1003600 (fun _ => "2024-03") "Shipped v2" "manual"
        (some "999") none
        [("manual_1000000000",
          ⟨1000000, "2024-03", "Shipped v2", "manual", none, none⟩)]).1).length = 1
    ∧ normFilter
        (record_post_to_ledger 1003600 (fun _ => "2024-03") "Shipped v2" "manual"
          (some "999") none
          [("manual_1000000000",
            ⟨1000000, "2024-03", "Shipped v2", "manual", none, none⟩)]).1
        (pyNorm (pyStrip "Shipped v2"))
      = [("manual_1000000000",
          ⟨1000000, "2024-03", "Shipped v2", "manual", some "999",
           some "https://x.com/i/web/status/999"⟩)] := by
  have h := record_update_in_place 1003600 (fun _ => "2024-03") "Shipped v2" "manual"
    (some "999") none
    [("manual_1000000000", ⟨1000000, "2024-03", "Shipped v2", "manual", none, none⟩)]
    "manual_1000000000" ⟨1000000, "2024-03", "Shipped v2", "manual", none, none⟩
    (by decide) (by decide) (by decide) (by decide) (by decide) (by decide)
  refine ⟨h.1, ?_⟩
  rw [h.2]
  decide

/-- Helper: a search over a list none of whose elements satisfies the
predicate finds nothing. -/
theorem find?_none_of_any_false {α : Type} (p : α → Bool) (l : List α)
    (h : l.any p = false) : l.find? p = none := by
  rw [List.find?_eq_none]
  intro x hx hpx
  exact (List.any_eq_false.mp h) x hx hpx

/-- Helper: the binding written by `dictSet` is in the resulting dict. -/
theorem mem_dictSet_self {κ ν : Type} [DecidableEq κ]
    (c : List (κ × ν)) (k : κ) (v : ν) : (k, v) ∈ dictSet c k v := by
  unfold dictSet
  by_cases h : c.any (fun p => p.1 = k) = true
  · rw [if_pos h]
    obtain ⟨p, hp, hpk⟩ := List.any_eq_true.mp h
    refine List.mem_map.mpr ⟨p, hp, ?_⟩
    rw [if_pos (of_decide_eq_true hpk)]
  · rw [if_neg h]
    exact List.mem_append.mpr (Or.inr (List.mem_singleton_self _))

/-- Helper: when no record with the same normalized text lies inside the
duplicate window, `record_post_to_ledger` inserts a fresh record. -/
theorem record_insert_of_no_recent (now : Int) (monthKey : Int → String)
    (t method : String) (tid turl : Option String) (led : Ledger)
    (hfix : pyStrip t = t) (ht : ¬ t = "")
    (hnone : findRecent led (pyNorm t) (now - 2 * 86400) = none) :
    record_post_to_ledger now monthKey t method tid turl led
      = (dictSet led
          (if method ≠ "api" then method ++ "_" ++ toString (now * 1000)
           else "api_" ++ toString (now * 1000))
          ⟨now, monthKey now, pyNorm t, method,
           (if method = "api" then tid else (if truthy tid then tid else none)),
           pyOr turl (if truthy tid then some (tweet_url_of (tid.getD "")) else none)⟩,
         true) := by
  unfold record_post_to_ledger
  dsimp only
  rw [hfix, if_neg ht, hnone]

/-- Helper: on an accepted text (nonempty, within the length limit, not
a recent duplicate, quota positive) `post_to_x` reduces to the platform
call and its two outcomes. -/
theorem post_to_x_accepted (maxWrites now : Int) (monthKey : Int → String)
    (tok : String) (platform : String → Except String String)
    (led : Ledger) (text : String)
    (ht : ¬ pyStrip text = "")
    (hlen : ¬ (pyStrip text).length > 280)
    (hdup : was_recently_posted now led (pyStrip text) 2 = false)
    (hq : ¬ remaining_posts_this_month maxWrites (monthKey now) led ≤ 0) :
    post_to_x maxWrites now monthKey (some tok) platform led text
      = match platform (pyStrip text) with
        | Except.ok tid =>
            ((⟨true, some tid, none,
              remaining_posts_this_month maxWrites (monthKey now)
                (record_post_to_ledger now monthKey (pyStrip text) "api"
                  (some tid) none led).1⟩ : PostResult),
             (record_post_to_ledger now monthKey (pyStrip text) "api"
               (some tid) none led).1,
             true)
        | Except.error e =>
            (⟨false, none, some e,
              remaining_posts_this_month maxWrites (monthKey now) led⟩, led, true) := by
  unfold post_to_x
  dsimp only
  rw [if_neg ht, if_neg hlen, if_neg (by simp [hdup]), if_neg hq]

/-- Claim C4: `post_to_x` never touches the ledger when it fails (in
particular a platform error is passed through verbatim as the `error`
field with the ledger unchanged), and on platform success it appends
exactly one ledger record with method `api` carrying the platform id. -/
theorem post_platform_error_spec (maxWrites now : Int) (monthKey : Int → String)
    (auth : Option String) (tok : String)
    (platform : String → Except String String) (led : Ledger) (text : String) :
    ((post_to_x maxWrites now monthKey auth platform led text).1.success = false →
      (post_to_x maxWrites now monthKey auth platform led text).2.1 = led)
    ∧ (¬ pyStrip text = "" →
       ¬ (pyStrip text).length > 280 →
       was_recently_posted now led (pyStrip text) 2 = false →
       ¬ remaining_posts_this_month maxWrites (monthKey now) led ≤ 0 →
       (∀ e, platform (pyStrip text) = Except.error e →
          post_to_x maxWrites now monthKey (some tok) platform led text
            = (⟨false, none, some e,
                remaining_posts_this_month maxWrites (monthKey now) led⟩, led, true))
       ∧ (∀ tid, platform (pyStrip text) = Except.ok tid →
            led.any (fun p => p.1 = "api_" ++ toString (now * 1000)) = false →
            (post_to_x maxWrites now monthKey (some tok) platform led text).1.success
              = true
            ∧ ∃ r : LedgerRec,
                (post_to_x maxWrites now monthKey (some tok) platform led text).2.1
                  = led ++ [("api_" ++ toString (now * 1000), r)]
                ∧ r.method = "api" ∧ r.tweet_id = some tid ∧ r.ts = now
                ∧ r.month = monthKey now ∧ r.norm_text = pyNorm (pyStrip text))) := by
  constructor
  · intro hfail
    unfold post_to_x at hfail ⊢
    dsimp only at hfail ⊢
    cases auth with
    | none => rfl
    | some tok' =>
      dsimp only at hfail ⊢
      by_cases h1 : pyStrip text = ""
      · rw [if_pos h1]
      · rw [if_neg h1] at hfail ⊢
        by_cases h2 : (pyStrip text).length > 280
        · rw [if_pos h2]
        · rw [if_neg h2] at hfail ⊢
          by_cases h3 : was_recently_posted now led (pyStrip text) 2 = true
          · rw [if_pos h3]
          · rw [if_neg h3] at hfail ⊢
            by_cases h4 : remaining_posts_this_month maxWrites (monthKey now) led ≤ 0
            · rw [if_pos h4]
            · rw [if_neg h4] at hfail ⊢
              cases hplat : platform (pyStrip text) with
              | error e => rfl
              | ok tid =>
                rw [hplat] at hfail
                dsimp only at hfail
                exact absurd hfail (by simp)
  · intro ht hlen hdup hq
    have hnone : findRecent led (pyNorm (pyStrip text)) (now - 2 * 86400) = none := by
      have hdup' := hdup
      unfold was_recently_posted at hdup'
      dsimp only at hdup'
      exact find?_none_of_any_false _ _ hdup'
    constructor
    · intro e hplat
      rw [post_to_x_accepted maxWrites now monthKey tok platform led text
        ht hlen hdup hq, hplat]
    · intro tid hplat hfresh
      rw [post_to_x_accepted maxWrites now monthKey tok platform led text
        ht hlen hdup hq, hplat]
      dsimp only
      rw [record_insert_of_no_recent now monthKey (pyStrip text) "api" (some tid)
        none led (pyStrip_idem text) ht hnone]
      dsimp only
      rw [if_neg (not_not_intro rfl)]
      unfold dictSet
      rw [if_neg (by simp [hfresh])]
      refine ⟨rfl, ⟨_, rfl, ?_, ?_, rfl, rfl, rfl⟩⟩
      · rfl
      · simp

/-- Witness for C4: a platform that reports a duplicate error leaves
the ledger unchanged and surfaces the error string verbatim; a platform
that succeeds appends the `api` record. -/
theorem post_platform_error_spec_witness :
    post_to_x 480 1000000 (fun _ => "2024-03") (some "tok")
        (fun _ => Except.error "403 Forbidden: duplicate content") [] "hello world"
      = (⟨false, none, some "403 Forbidden: duplicate content",
          remaining_posts_this_month 480 "2024-03" []⟩, [], true)
    ∧ (post_to_x 480 1000000 (fun _ => "2024-03") (some "tok")
        (fun _ => Except.ok "111") [] "hello world").1.success = true := by
  constructor
  · exact ((post_platform_error_spec 480 1000000 (fun _ => "2024-03") (some "tok")
      "tok" (fun _ => Except.error "403 Forbidden: duplicate content") [] "hello world").2
      (by decide) (by decide) (by decide) (by decide)).1
      "403 Forbidden: duplicate content" rfl
  · exact (((post_platform_error_spec 480 1000000 (fun _ => "2024-03") (some "tok")
      "tok" (fun _ => Except.ok "111") [] "hello world").2
      (by decide) (by decide) (by decide) (by decide)).2
      "111" rfl (by decide)).1

/-- Claim C1: with the account connected, `post_to_x` rejects — with the
distinct reason code, without contacting the platform, and without
touching the ledger — when the stripped text is empty, exceeds 280
characters, was posted within the last 48 h, or when the monthly quota
is exhausted; and a successful publish followed within 48 h by a second
publish of the same text makes the second call return
`duplicate_guard_48h` without a platform call, so the same text
succeeds at most once per window. -/
theorem publish_guards_spec (maxWrites now : Int) (monthKey : Int → String)
    (tok : String) (platform : String → Except String String)
    (led : Ledger) (text : String) :
    (pyStrip text = "" →
      post_to_x maxWrites now monthKey (some tok) platform led text
        = (⟨false, none, some "empty_text",
            remaining_posts_this_month maxWrites (monthKey now) led⟩, led, false))
    ∧ (¬ pyStrip text = "" → (pyStrip text).length > 280 →
      post_to_x maxWrites now monthKey (some tok) platform led text
        = (⟨false, none, some "over_280_chars",
            remaining_posts_this_month maxWrites (monthKey now) led⟩, led, false))
    ∧ (¬ pyStrip text = "" → ¬ (pyStrip text).length > 280 →
       was_recently_posted now led (pyStrip text) 2 = true →
      post_to_x maxWrites now monthKey (some tok) platform led text
        = (⟨false, none, some "duplicate_guard_48h",
            remaining_posts_this_month maxWrites (monthKey now) led⟩, led, false))
    ∧ (¬ pyStrip text = "" → ¬ (pyStrip text).length > 280 →
       was_recently_posted now led (pyStrip text) 2 = false →
       remaining_posts_this_month maxWrites (monthKey now) led ≤ 0 →
      post_to_x maxWrites now monthKey (some tok) platform led text
        = (⟨false, none, some "monthly_quota_reached", 0⟩, led, false))
    ∧ (∀ (now2 : Int) (platform2 : String → Except String String),
        (post_to_x maxWrites now monthKey (some tok) platform led text).1.success
          = true →
        now2 ≤ now + 2 * 86400 →
        post_to_x maxWrites now2 monthKey (some tok) platform2
            (post_to_x maxWrites now monthKey (some tok) platform led text).2.1 text
          = (⟨false, none, some "duplicate_guard_48h",
              remaining_posts_this_month maxWrites (monthKey now2)
                (post_to_x maxWrites now monthKey (some tok) platform led text).2.1⟩,
             (post_to_x maxWrites now monthKey (some tok) platform led text).2.1,
             false)) := by
  have hempty : pyStrip text = "" →
      post_to_x maxWrites now monthKey (some tok) platform led text
        = (⟨false, none, some "empty_text",
            remaining_posts_this_month maxWrites (monthKey now) led⟩, led, false) := by
    intro h1
    unfold post_to_x
    dsimp only
    rw [if_pos h1]
  have hover : ¬ pyStrip text = "" → (pyStrip text).length > 280 →
      post_to_x maxWrites now monthKey (some tok) platform led text
        = (⟨false, none, some "over_280_chars",
            remaining_posts_this_month maxWrites (monthKey now) led⟩, led, false) := by
    intro h1 h2
    unfold post_to_x
    dsimp only
    rw [if_neg h1, if_pos h2]
  have hdupcase : ¬ pyStrip text = "" → ¬ (pyStrip text).length > 280 →
      was_recently_posted now led (pyStrip text) 2 = true →
      post_to_x maxWrites now monthKey (some tok) platform led text
        = (⟨false, none, some "duplicate_guard_48h",
            remaining_posts_this_month maxWrites (monthKey now) led⟩, led, false) := by
    intro h1 h2 h3
    unfold post_to_x
    dsimp only
    rw [if_neg h1, if_neg h2, if_pos h3]
  have hquota : ¬ pyStrip text = "" → ¬ (pyStrip text).length > 280 →
      was_recently_posted now led (pyStrip text) 2 = false →
      remaining_posts_this_month maxWrites (monthKey now) led ≤ 0 →
      post_to_x maxWrites now monthKey (some tok) platform led text
        = (⟨false, none, some "monthly_quota_reached", 0⟩, led, false) := by
    intro h1 h2 h3 h4
    unfold post_to_x
    dsimp only
    rw [if_neg h1, if_neg h2, if_neg (by simp [h3]), if_pos h4]
  refine ⟨hempty, hover, hdupcase, hquota, ?_⟩
  intro now2 platform2 hsucc hwin
  by_cases h1 : pyStrip text = ""
  · rw [hempty h1] at hsucc
    simp at hsucc
  by_cases h2 : (pyStrip text).length > 280
  · rw [hover h1 h2] at hsucc
    simp at hsucc
  by_cases h3 : was_recently_posted now led (pyStrip text) 2 = true
  · rw [hdupcase h1 h2 h3] at hsucc
    simp at hsucc
  have h3' : was_recently_posted now led (pyStrip text) 2 = false := by
    simpa using h3
  by_cases h4 : remaining_posts_this_month maxWrites (monthKey now) led ≤ 0
  · rw [hquota h1 h2 h3' h4] at hsucc
    simp at hsucc
  have hnone : findRecent led (pyNorm (pyStrip text)) (now - 2 * 86400) = none := by
    have hdup' := h3'
    unfold was_recently_posted at hdup'
    dsimp only at hdup'
    exact find?_none_of_any_false _ _ hdup'
  rw [post_to_x_accepted maxWrites now monthKey tok platform led text h1 h2 h3' h4]
    at hsucc ⊢
  revert hsucc
  cases hplat : platform (pyStrip text) with
  | error e =>
    intro hsucc
    simp at hsucc
  | ok tid =>
    intro hsucc
    dsimp only
    rw [record_insert_of_no_recent now monthKey (pyStrip text) "api" (some tid)
      none led (pyStrip_idem text) h1 hnone]
    dsimp only
    unfold post_to_x
    dsimp only
    rw [if_neg h1, if_neg h2]
    rw [if_pos ?hdup2]
    case hdup2 =>
      unfold was_recently_posted
      dsimp only
      refine List.any_eq_true.mpr ⟨_, mem_dictSet_self led _ _, ?_⟩
      simp only [Bool.and_eq_true, decide_eq_true_eq]
      refine ⟨by trivial, ?_⟩
      show now ≥ now2 - 2 * 86400
      omega

/-- Witness for C1: the empty-text rejection, and the spec's publish-twice
scenario — a successful publish of "hello world" followed one hour later
by the same text is rejected with `duplicate_guard_48h` and no platform
call. -/
theorem publish_guards_spec_witness :
    post_to_x 480 1000000 (fun _ => "2024-03") (some "tok")
        (fun _ => Except.ok "111") [] "   "
      = (⟨false, none, some "empty_text",
          remaining_posts_this_month 480 "2024-03" []⟩, [], false)
    ∧ post_to_x 480 1003600 (fun _ => "2024-03") (some "tok")
        (fun _ => Except.ok "222")
        (post_to_x 480 1000000 (fun _ => "2024-03") (some "tok")
          (fun _ => Except.ok "111") [] "hello world").2.1 "hello world"
      = (⟨false, none, some "duplicate_guard_48h",
          remaining_posts_this_month 480 "2024-03"
            (post_to_x 480 1000000 (fun _ => "2024-03") (some "tok")
              (fun _ => Except.ok "111") [] "hello world").2.1⟩,
         (post_to_x 480 1000000 (fun _ => "2024-03") (some "tok")
           (fun _ => Except.ok "111") [] "hello world").2.1,
         false) := by
  constructor
  · exact (publish_guards_spec 480 1000000 (fun _ => "2024-03") "tok"
      (fun _ => Except.ok "111") [] "   ").1 (by decide)
  · exact (publish_guards_spec 480 1000000 (fun _ => "2024-03") "tok"
      (fun _ => Except.ok "111") [] "hello world").2.2.2.2
      1003600 (fun _ => Except.ok "222") (by decide) (by decide)

end Banger
